import Mathlib

/-!
Shallow embedding of the ride-hailing backend (wallet ledger, trip state
machine, dispatch, fare calculator) and proofs about it.

Monetary amounts are modelled as exact rationals (ℚ).  Because the library
marks `Rat.add/sub/mul` irreducible, the embedding uses kernel-reducible
wrappers `qadd`, `qsub`, `qmul` (proved equal to `+`, `-`, `*` below) so that
every definition evaluates on concrete inputs by `decide`.
-/

/-- Kernel-reducible addition on ℚ (equal to `+`, see `qadd_eq`). -/
def qadd (a b : ℚ) : ℚ := Rat.divInt (a.num * b.den + b.num * a.den) (a.den * b.den)

/-- Kernel-reducible subtraction on ℚ (equal to `-`, see `qsub_eq`). -/
def qsub (a b : ℚ) : ℚ := qadd a (-b)

/-- Kernel-reducible multiplication on ℚ (equal to `*`, see `qmul_eq`). -/
def qmul (a b : ℚ) : ℚ := Rat.divInt (a.num * b.num) (a.den * b.den)

theorem qadd_eq (a b : ℚ) : qadd a b = a + b := by
  have ha : ((a.den : ℚ)) ≠ 0 := by exact_mod_cast a.den_nz
  have hb : ((b.den : ℚ)) ≠ 0 := by exact_mod_cast b.den_nz
  rw [qadd, Rat.divInt_eq_div]
  push_cast
  conv_rhs => rw [← Rat.num_div_den a, ← Rat.num_div_den b]
  rw [div_add_div _ _ ha hb]
  ring

theorem qsub_eq (a b : ℚ) : qsub a b = a - b := by
  rw [qsub, qadd_eq, sub_eq_add_neg]

theorem qmul_eq (a b : ℚ) : qmul a b = a * b := by
  rw [qmul, Rat.divInt_eq_div]
  push_cast
  conv_rhs => rw [← Rat.num_div_den a, ← Rat.num_div_den b]
  rw [div_mul_div_comm]

/-- Kernel-reducible floor of a rational (equal to `Int.floor`, see
`ratFloor_eq`). -/
def ratFloor (q : ℚ) : ℤ := Int.fdiv q.num q.den

theorem ratFloor_eq (q : ℚ) : ratFloor q = ⌊q⌋ := by
  rw [ratFloor, Rat.floor_def, Int.fdiv_eq_ediv _ (by positivity)]

/-- JavaScript `Math.round`: round half toward positive infinity. -/
def jsRound (q : ℚ) : ℤ := ratFloor (qadd q (Rat.divInt 1 2))

/-- `Math.round(x * 100) / 100`: round to 2 decimal places, half up. -/
def round2 (q : ℚ) : ℚ := Rat.divInt (jsRound (qmul q 100)) 100

theorem jsRound_eq (q : ℚ) : jsRound q = ⌊q + 1 / 2⌋ := by
  rw [jsRound, ratFloor_eq, qadd_eq, Rat.divInt_eq_div]
  norm_num

theorem round2_eq (q : ℚ) : round2 q = (⌊q * 100 + 1 / 2⌋ : ℚ) / 100 := by
  rw [round2, jsRound_eq, qmul_eq, Rat.divInt_eq_div]
  norm_num

/-- `round2` applied to an exact multiple of a cent is the identity. -/
theorem round2_int_div_100 (k : ℤ) : round2 ((k : ℚ) / 100) = (k : ℚ) / 100 := by
  rw [round2_eq, div_mul_cancel₀ _ (by norm_num : (100 : ℚ) ≠ 0)]
  rw [Int.floor_int_add]
  norm_num

theorem round2_nonneg (q : ℚ) (h : 0 ≤ q) : 0 ≤ round2 q := by
  rw [round2_eq]
  have : (0 : ℤ) ≤ ⌊q * 100 + 1 / 2⌋ := Int.floor_nonneg.mpr (by positivity)
  positivity

/-- The result of `round2` is always a whole number of cents. -/
theorem round2_cents (q : ℚ) : ∃ k : ℤ, round2 q = (k : ℚ) / 100 :=
  ⟨jsRound (qmul q 100), by rw [round2, Rat.divInt_eq_div]; norm_num⟩

theorem round2_idem (q : ℚ) : round2 (round2 q) = round2 q := by
  obtain ⟨k, hk⟩ := round2_cents q
  rw [hk, round2_int_div_100]

/-! ## Wallet ledger (Wallet.model.ts) -/

/-- TransactionType enum of the wallet model. -/
inductive TransactionType where
  | credit
  | debit
deriving DecidableEq

/-- TransactionStatus enum of the wallet model.  Note there is no
`PROCESSING` member: the only members are pending, completed, failed,
cancelled. -/
inductive TransactionStatus where
  | pending
  | completed
  | failed
  | cancelled
deriving DecidableEq

/-- TransactionCategory enum of the wallet model. -/
inductive TransactionCategory where
  | ridePayment
  | rideEarning
  | walletTopup
  | withdrawal
  | refund
  | tip
  | bonus
  | penalty
deriving DecidableEq

/-- One entry of a wallet's append-only transaction log (ITransaction),
restricted to the fields the claims are about. -/
structure Transaction where
  type : TransactionType
  amount : ℚ
  category : TransactionCategory
  status : TransactionStatus
deriving DecidableEq

/-- A calendar date by components, as compared by `resetLimits`
(`getDate`/`getMonth`/`getFullYear`). -/
structure SimpleDate where
  year : ℕ
  month : ℕ
  day : ℕ
deriving DecidableEq

/-- The persisted wallet document (IWallet), restricted to the fields the
claims are about. -/
structure Wallet where
  balance : ℚ
  isActive : Bool
  transactions : List Transaction
  dailyLimit : ℚ
  monthlyLimit : ℚ
  dailySpent : ℚ
  monthlySpent : ℚ
  lastResetDate : SimpleDate
deriving DecidableEq

/-- The balance normalization of the `pre('save')` hook: a negative balance
is replaced by 0, then the balance is rounded to 2 decimal places. -/
def preSaveBal (b : ℚ) : ℚ := round2 (if b < 0 then 0 else b)

/-- Persisting a wallet runs the `pre('save')` hook on its balance. -/
def saveWallet (w : Wallet) : Wallet := { w with balance := preSaveBal w.balance }

/-- WalletSchema.methods.resetLimits: zero `dailySpent` when the calendar
day changed, zero `monthlySpent` when the calendar month changed, and set
`lastResetDate` to now. -/
def Wallet.resetLimits (w : Wallet) (now : SimpleDate) : Wallet :=
  let lr := w.lastResetDate
  let w1 := if now.day ≠ lr.day ∨ now.month ≠ lr.month ∨ now.year ≠ lr.year then
    { w with dailySpent := 0 } else w
  let w2 := if now.month ≠ lr.month ∨ now.year ≠ lr.year then
    { w1 with monthlySpent := 0 } else w1
  { w2 with lastResetDate := now }

/-- WalletSchema.methods.canSpend: reset limits, then compare the spend
counters (plus the amount) against the limits.  Returns the check result
together with the mutated in-memory wallet. -/
def Wallet.canSpend (w : Wallet) (now : SimpleDate) (amount : ℚ) : Bool × Wallet :=
  let wr := w.resetLimits now
  (decide (qadd wr.dailySpent amount ≤ wr.dailyLimit) &&
     decide (qadd wr.monthlySpent amount ≤ wr.monthlyLimit), wr)

/-- WalletSchema.methods.addTransaction: append the transaction (status
defaulting to PENDING when the given status is undefined), adjust balance
and spend counters only when the transaction is COMPLETED, then save. -/
def Wallet.addTransaction (w : Wallet) (ty : TransactionType) (amount : ℚ)
    (category : TransactionCategory) (status? : Option TransactionStatus) : Wallet :=
  let status := status?.getD .pending
  let t : Transaction := ⟨ty, amount, category, status⟩
  let w1 : Wallet := { w with transactions := w.transactions ++ [t] }
  let w2 : Wallet :=
    if status = TransactionStatus.completed then
      match ty with
      | .credit => { w1 with balance := qadd w1.balance amount }
      | .debit =>
        { w1 with
          balance := qsub w1.balance amount
          dailySpent := qadd w1.dailySpent amount
          monthlySpent := qadd w1.monthlySpent amount }
    else w1
  saveWallet w2

/-- Error taxonomy of the wallet operations. -/
inductive WalletError where
  | walletNotActive
  | insufficientBalance
  | limitExceeded
  | validationFailed
deriving DecidableEq

/-- Decidable equality for `Except` results, so that runs of the embedded
operations can be evaluated by `decide`. -/
instance {ε α : Type} [DecidableEq ε] [DecidableEq α] : DecidableEq (Except ε α)
  | .ok a, .ok b =>
    if h : a = b then isTrue (h ▸ rfl) else isFalse fun c => h (Except.ok.inj c)
  | .error a, .error b =>
    if h : a = b then isTrue (h ▸ rfl) else isFalse fun c => h (Except.error.inj c)
  | .ok _, .error _ => isFalse Except.noConfusion
  | .error _, .ok _ => isFalse Except.noConfusion

/-- WalletSchema.methods.credit.  An `.error` result models a thrown
exception: no save happens, so the persisted wallet is unchanged. -/
def Wallet.credit (w : Wallet) (amount : ℚ) (category : TransactionCategory) :
    Except WalletError Wallet :=
  if w.isActive = false then .error .walletNotActive
  else .ok (w.addTransaction .credit amount category (some .completed))

/-- WalletSchema.methods.debit: active check, balance check, canSpend check
(which runs resetLimits on the in-memory document), then a COMPLETED debit
transaction.  An `.error` result models a thrown exception: no save
happens, so the persisted wallet is unchanged. -/
def Wallet.debit (w : Wallet) (now : SimpleDate) (amount : ℚ)
    (category : TransactionCategory) : Except WalletError Wallet :=
  if w.isActive = false then .error .walletNotActive
  else if w.balance < amount then .error .insufficientBalance
  else
    match w.canSpend now amount with
    | (false, _) => .error .limitExceeded
    | (true, wr) => .ok (wr.addTransaction .debit amount category (some .completed))

/-- PaymentService.withdrawFromWallet, reduced to its effect on the wallet:
amount validation (zod minimum 10), active check, balance check, then
`addTransaction` with the DEBIT type and the WITHDRAWAL category.  The
source passes `TransactionStatus.PROCESSING` as status, but the wallet
model's TransactionStatus enum has no PROCESSING member, so that property
access yields `undefined`, modelled as `none`. -/
def withdrawFromWallet (w : Wallet) (amount : ℚ) : Except WalletError Wallet :=
  if amount < 10 then .error .validationFailed
  else if w.isActive = false then .error .walletNotActive
  else if w.balance < amount then .error .insufficientBalance
  else .ok (w.addTransaction .debit amount .withdrawal none)

/-- PaymentService.createWalletForUser: a fresh wallet with balance 0 and
the schema's default limits, saved once. -/
def createWalletForUser (now : SimpleDate) : Wallet :=
  saveWallet { balance := 0, isActive := true, transactions := [],
               dailyLimit := 500, monthlyLimit := 5000,
               dailySpent := 0, monthlySpent := 0, lastResetDate := now }

/-- One persisted-state wallet operation, as exposed by the payment
service: credit (topup, refund, settlement leg, transfer leg), debit
(ride payment, transfer leg), withdrawal, and the resetLimits-plus-save of
`getWallet`. -/
inductive WalletOp where
  | creditOp (amount : ℚ) (category : TransactionCategory)
  | debitOp (now : SimpleDate) (amount : ℚ) (category : TransactionCategory)
  | withdrawOp (amount : ℚ)
  | saveOp (now : SimpleDate)
deriving DecidableEq

/-- Apply one wallet operation to the persisted wallet.  A thrown error
leaves the persisted wallet unchanged (the in-memory document is discarded
without a save). -/
def applyOp (w : Wallet) : WalletOp → Wallet
  | .creditOp a c =>
    match w.credit a c with
    | .ok w' => w'
    | .error _ => w
  | .debitOp d a c =>
    match w.debit d a c with
    | .ok w' => w'
    | .error _ => w
  | .withdrawOp a =>
    match withdrawFromWallet w a with
    | .ok w' => w'
    | .error _ => w
  | .saveOp d => saveWallet (w.resetLimits d)

/-- The balance contribution of one logged transaction, with the
`pre('save')` normalization applied after it (as happens at every save). -/
def walletStep (b : ℚ) (t : Transaction) : ℚ :=
  preSaveBal (if t.status = TransactionStatus.completed then
                match t.type with
                | .credit => qadd b t.amount
                | .debit => qsub b t.amount
              else b)

/-- The balance obtained by replaying a transaction log save by save. -/
def ledgerBalance (l : List Transaction) : ℚ := l.foldl walletStep 0

/-- The spec's ledger formula: sum of COMPLETED credit amounts minus sum of
COMPLETED debit amounts. -/
def completedSum (l : List Transaction) : ℚ :=
  ((l.filter fun t => decide (t.status = TransactionStatus.completed ∧
      t.type = TransactionType.credit)).map Transaction.amount).sum -
  ((l.filter fun t => decide (t.status = TransactionStatus.completed ∧
      t.type = TransactionType.debit)).map Transaction.amount).sum

/-! ## Trip model, fare calculator, state machine (Trip.model.ts, Driver.model.ts, RideService) -/

/-- UserRole enum. -/
inductive UserRole where
  | passenger
  | driver
  | admin
deriving DecidableEq

/-- TripStatus enum. -/
inductive TripStatus where
  | requested
  | accepted
  | driverArrived
  | inProgress
  | completed
  | cancelled
deriving DecidableEq

/-- PaymentStatus enum of the trip model (this one does have PROCESSING). -/
inductive PaymentStatus where
  | pending
  | processing
  | completed
  | failed
  | refunded
deriving DecidableEq

/-- PaymentMethod enum. -/
inductive PaymentMethod where
  | wallet
  | creditCard
  | cash
deriving DecidableEq

/-- VehicleType enum. -/
inductive VehicleType where
  | sedan
  | suv
  | hatchback
  | luxury
  | bike
deriving DecidableEq

/-- DriverStatus enum. -/
inductive DriverStatus where
  | pending
  | approved
  | rejected
  | suspended
deriving DecidableEq

/-- DriverAvailability enum. -/
inductive DriverAvailability where
  | online
  | offline
  | busy
deriving DecidableEq

/-- IFareBreakdown. -/
structure FareBreakdown where
  baseFare : ℚ
  distanceFare : ℚ
  timeFare : ℚ
  surgeMultiplier : ℚ
  discount : ℚ
  tax : ℚ
  tip : ℚ
  totalFare : ℚ
deriving DecidableEq

/-- TripSchema.methods.calculateFare: base 2.50, 1.20 per km, 0.25 per
minute, 8% tax; surge, discount and tip are taken from the trip's stored
fare breakdown; only the total is rounded (to 2 decimals, half up). -/
def tripCalculateFare (estimatedDistance estimatedDuration surgeMultiplier discount tip : ℚ) :
    FareBreakdown :=
  let baseFare : ℚ := Rat.divInt 5 2
  let perKmRate : ℚ := Rat.divInt 6 5
  let perMinuteRate : ℚ := Rat.divInt 1 4
  let taxRate : ℚ := Rat.divInt 2 25
  let distanceFare := qmul estimatedDistance perKmRate
  let timeFare := qmul estimatedDuration perMinuteRate
  let subtotal := qmul (qadd (qadd baseFare distanceFare) timeFare) surgeMultiplier
  let tax := qmul (qsub subtotal discount) taxRate
  let totalFare := qadd (qadd (qsub subtotal discount) tax) tip
  { baseFare := baseFare, distanceFare := distanceFare, timeFare := timeFare,
    surgeMultiplier := surgeMultiplier, discount := discount, tax := tax,
    tip := tip, totalFare := round2 totalFare }

/-- RideService.calculateFare: same constants, with a 2.00 per-km rate for
luxury, surge fixed at 1, no discount and no tip, tax on the subtotal. -/
def rideCalculateFare (distance duration : ℚ) (vehicleType : Option VehicleType) :
    FareBreakdown :=
  let baseFare : ℚ := Rat.divInt 5 2
  let perKmRate : ℚ := if vehicleType = some VehicleType.luxury then 2 else Rat.divInt 6 5
  let perMinuteRate : ℚ := Rat.divInt 1 4
  let taxRate : ℚ := Rat.divInt 2 25
  let distanceFare := qmul distance perKmRate
  let timeFare := qmul duration perMinuteRate
  let surgeMultiplier : ℚ := 1
  let subtotal := qmul (qadd (qadd baseFare distanceFare) timeFare) surgeMultiplier
  let tax := qmul subtotal taxRate
  let totalFare := qadd subtotal tax
  { baseFare := baseFare, distanceFare := distanceFare, timeFare := timeFare,
    surgeMultiplier := surgeMultiplier, discount := 0, tax := tax,
    tip := 0, totalFare := round2 totalFare }

/-- The driver document (IDriver), restricted to the fields the claims are
about.  `id` models the document id `_id`; `userId` the owning user. -/
structure Driver where
  id : ℕ
  userId : ℕ
  driverStatus : DriverStatus
  availability : DriverAvailability
  vehicleType : VehicleType
  location : ℚ × ℚ
deriving DecidableEq

/-- DriverSchema.methods.isAvailableForRide. -/
def Driver.isAvailableForRide (d : Driver) : Bool :=
  decide (d.driverStatus = DriverStatus.approved) &&
    decide (d.availability = DriverAvailability.online)

/-- The trip document (ITrip), restricted to the fields the claims are
about.  `driverId` holds the populated driver document when assigned. -/
structure Trip where
  passengerId : ℕ
  driverId : Option Driver
  status : TripStatus
  estimatedDistance : ℚ
  estimatedDuration : ℚ
  fareBreakdown : FareBreakdown
  paymentMethod : PaymentMethod
  paymentStatus : PaymentStatus
  vehicleType : VehicleType
  requestedAt : ℕ
  acceptedAt : Option ℕ
  driverArrivedAt : Option ℕ
  startedAt : Option ℕ
  completedAt : Option ℕ
  cancelledAt : Option ℕ
deriving DecidableEq

/-- TripSchema.methods.updateStatus: set the status and stamp the matching
timestamp; COMPLETED additionally marks the payment status PROCESSING. -/
def Trip.updateStatus (t : Trip) (newStatus : TripStatus) (now : ℕ) : Trip :=
  let t1 : Trip := { t with status := newStatus }
  match newStatus with
  | .accepted => { t1 with acceptedAt := some now }
  | .driverArrived => { t1 with driverArrivedAt := some now }
  | .inProgress => { t1 with startedAt := some now }
  | .completed => { t1 with completedAt := some now, paymentStatus := PaymentStatus.processing }
  | .cancelled => { t1 with cancelledAt := some now }
  | .requested => t1

/-- TripSchema.methods.canBeCancelled. -/
def Trip.canBeCancelled (t : Trip) : Bool :=
  decide (t.status ∈ [TripStatus.requested, TripStatus.accepted, TripStatus.driverArrived])

/-- The validTransitions table of RideService.updateTripStatus. -/
def validTransitions : TripStatus → List TripStatus
  | .requested => [.accepted, .cancelled]
  | .accepted => [.driverArrived, .cancelled]
  | .driverArrived => [.inProgress, .cancelled]
  | .inProgress => [.completed]
  | .completed => []
  | .cancelled => []

/-- The driverOnlyStatuses list of RideService.updateTripStatus. -/
def driverOnlyStatuses : List TripStatus := [.driverArrived, .inProgress, .completed]

/-- Error taxonomy of the ride service operations. -/
inductive RideError where
  | notAuthorized
  | stateConflict (current next : TripStatus)
  | driverOnlyStatus
  | driverNotAvailable
  | alreadyActiveTrip
  | tripNoLongerAvailable
  | noDriversAvailable
  | onlyPassengersCanRequest
deriving DecidableEq

/-- The `isPassenger` check of updateTripStatus/cancelTrip. -/
def Trip.isPassenger (t : Trip) (userId : ℕ) : Bool := decide (t.passengerId = userId)

/-- The `isDriver` check of updateTripStatus/cancelTrip (against the
populated driver's userId). -/
def Trip.isDriver (t : Trip) (userId : ℕ) : Bool :=
  match t.driverId with
  | some d => decide (d.userId = userId)
  | none => false

/-- RideService.updateTripStatus, reduced to its effect on the trip record:
authorization, transition-table validation, driver-only-status check, then
`Trip.updateStatus` and save.  An `.error` result models a thrown
exception, raised before any mutation of the trip. -/
def updateTripStatus (userId : ℕ) (trip : Trip) (status : TripStatus) (now : ℕ) :
    Except RideError Trip :=
  if trip.isPassenger userId = false ∧ trip.isDriver userId = false then
    .error .notAuthorized
  else if status ∉ validTransitions trip.status then
    .error (.stateConflict trip.status status)
  else if status ∈ driverOnlyStatuses ∧ trip.isDriver userId = false then
    .error .driverOnlyStatus
  else
    .ok (trip.updateStatus status now)

/-- The validation phase of RideService.acceptRide: all reads and checks
that happen before any write.  `driverHasActiveTrip` is the result of the
active-trip query for the accepting driver. -/
def acceptRideCheck (trip : Trip) (driver : Driver) (driverHasActiveTrip : Bool) :
    Option RideError :=
  if driver.isAvailableForRide = false then some .driverNotAvailable
  else if driverHasActiveTrip then some .alreadyActiveTrip
  else if trip.status ≠ TripStatus.requested then some .tripNoLongerAvailable
  else none

/-- The write phase of RideService.acceptRide: bind the driver, move the
trip (as read earlier) to ACCEPTED, save it, and mark the driver BUSY. -/
def acceptRideCommit (trip : Trip) (driver : Driver) (now : ℕ) : Trip × Driver :=
  (Trip.updateStatus { trip with driverId := some driver } TripStatus.accepted now,
   { driver with availability := DriverAvailability.busy })

/-- RideService.acceptRide run without interleaving: check, then commit. -/
def acceptRide (trip : Trip) (driver : Driver) (driverHasActiveTrip : Bool) (now : ℕ) :
    Except RideError (Trip × Driver) :=
  match acceptRideCheck trip driver driverHasActiveTrip with
  | some e => .error e
  | none => .ok (acceptRideCommit trip driver now)

/-- PaymentService.processRidePayment, reduced to its effect on the two
wallets: for the wallet payment method, debit the passenger by the amount,
then credit the driver the amount minus the 15% platform fee.  A thrown
error is caught and reported as `success = false`; a failure of the driver
credit still leaves the passenger debit persisted. -/
def processRidePayment (passengerWallet driverWallet : Wallet) (amount : ℚ)
    (paymentMethod : PaymentMethod) (now : SimpleDate) : Bool × Wallet × Wallet :=
  if paymentMethod = PaymentMethod.wallet then
    match passengerWallet.debit now amount TransactionCategory.ridePayment with
    | .error _ => (false, passengerWallet, driverWallet)
    | .ok pw =>
      let platformFee := qmul amount (Rat.divInt 3 20)
      let driverEarning := qsub amount platformFee
      match driverWallet.credit driverEarning TransactionCategory.rideEarning with
      | .error _ => (false, pw, driverWallet)
      | .ok dw => (true, pw, dw)
  else (false, passengerWallet, driverWallet)

/-! ## Dispatch (RideService.requestRide / findNearbyDrivers) -/

/-- Insert into a list sorted by `le` (used to model the proximity ordering
of the geospatial `$near` query). -/
def insertLe {α : Type} (le : α → α → Bool) (a : α) : List α → List α
  | [] => [a]
  | x :: xs => if le a x then a :: x :: xs else x :: insertLe le a xs

/-- Insertion sort by `le` (used to model the proximity ordering of the
geospatial `$near` query). -/
def sortLe {α : Type} (le : α → α → Bool) : List α → List α
  | [] => []
  | x :: xs => insertLe le x (sortLe le xs)

/-- RideService.findNearbyDrivers: drivers that are APPROVED, ONLINE, of
the requested vehicle type and within 5000 m of the pickup point, ordered
by proximity, capped at 10.  `geoDistM` abstracts the spherical distance
(in meters) computed by the geospatial index. -/
def findNearbyDrivers (geoDistM : Driver → ℚ × ℚ → ℚ) (drivers : List Driver)
    (pickup : ℚ × ℚ) (vehicleType : VehicleType) : List Driver :=
  (sortLe (fun a b => decide (geoDistM a pickup ≤ geoDistM b pickup))
    (drivers.filter fun d => decide (d.driverStatus = DriverStatus.approved ∧
      d.availability = DriverAvailability.online ∧ d.vehicleType = vehicleType ∧
      geoDistM d pickup ≤ 5000))).take 10

/-- The persisted ride store. -/
structure RideDB where
  trips : List Trip
  drivers : List Driver
deriving DecidableEq

/-- The active statuses used by the active-trip queries. -/
def activeStatuses : List TripStatus := [.requested, .accepted, .driverArrived, .inProgress]

/-- The requester's active-trip query of requestRide. -/
def hasActiveTrip (db : RideDB) (userId : ℕ) : Bool :=
  db.trips.any fun t => decide (t.passengerId = userId ∧ t.status ∈ activeStatuses)

/-- Events published on the broker, restricted to those the claims are
about. -/
inductive RideEvent where
  | rideRequested (trip : Trip) (nearbyDriverIds : List ℕ)
deriving DecidableEq

/-- RideService.requestRide: role check, active-trip check, distance and
fare estimation, then `trip.save()` (which persists the trip — the trip
pre('save') hook recomputes the fare breakdown with
TripSchema.methods.calculateFare), then the nearby-driver search; only
after the (already persisted) save does the empty-candidate check throw
'No drivers available in your area'.  The ride.requested fan-out event is
published only on success.  `distKm` abstracts the Haversine distance (in
km) and `geoDistM` the geospatial query distance (in meters). -/
def requestRide (distKm : ℚ × ℚ → ℚ × ℚ → ℚ) (geoDistM : Driver → ℚ × ℚ → ℚ)
    (db : RideDB) (userId : ℕ) (role : UserRole) (pickup dropoff : ℚ × ℚ)
    (vehicleType : VehicleType) (paymentMethod : PaymentMethod) (now : ℕ) :
    Except RideError Trip × RideDB × List RideEvent :=
  if role ≠ UserRole.passenger then (.error .onlyPassengersCanRequest, db, [])
  else if hasActiveTrip db userId then (.error .alreadyActiveTrip, db, [])
  else
    let distance := distKm pickup dropoff
    let estimatedDuration := max (qmul distance 2) 5
    let fb := rideCalculateFare distance estimatedDuration none
    let trip : Trip :=
      { passengerId := userId
        driverId := none
        status := .requested
        estimatedDistance := distance
        estimatedDuration := estimatedDuration
        fareBreakdown := tripCalculateFare distance estimatedDuration
          fb.surgeMultiplier fb.discount fb.tip
        paymentMethod := paymentMethod
        paymentStatus := .pending
        vehicleType := vehicleType
        requestedAt := now
        acceptedAt := none
        driverArrivedAt := none
        startedAt := none
        completedAt := none
        cancelledAt := none }
    let db1 : RideDB := { db with trips := db.trips ++ [trip] }
    let nearbyDrivers := findNearbyDrivers geoDistM db1.drivers pickup vehicleType
    if nearbyDrivers = [] then (.error .noDriversAvailable, db1, [])
    else (.ok trip, db1, [.rideRequested trip (nearbyDrivers.map Driver.id)])

/-! ## Concrete fixtures used by several theorems below -/

/-- A fixed calendar date. -/
def dateFix : SimpleDate := ⟨2026, 10, 12⟩

/-- A freshly created wallet (balance 0, default limits, active). -/
def walletFix : Wallet := createWalletForUser dateFix

/-- The fresh wallet with balance 100.00. -/
def wallet100Fix : Wallet := { walletFix with balance := 100 }

/-- The fresh wallet with balance 1000.00 (above the daily limit). -/
def wallet1000Fix : Wallet := { walletFix with balance := 1000 }

/-- A fare breakdown for 10 km / 20 min at surge 1, no discount, no tip. -/
def fareFix : FareBreakdown := tripCalculateFare 10 20 1 0 0

/-- A freshly requested trip of passenger 1 with no driver assigned. -/
def tripFix : Trip :=
  { passengerId := 1
    driverId := none
    status := .requested
    estimatedDistance := 10
    estimatedDuration := 20
    fareBreakdown := fareFix
    paymentMethod := .wallet
    paymentStatus := .pending
    vehicleType := .sedan
    requestedAt := 0
    acceptedAt := none
    driverArrivedAt := none
    startedAt := none
    completedAt := none
    cancelledAt := none }

/-- An approved, online sedan driver. -/
def driverFix1 : Driver :=
  { id := 11, userId := 101, driverStatus := .approved, availability := .online,
    vehicleType := .sedan, location := (0, 0) }

/-- A second approved, online sedan driver. -/
def driverFix2 : Driver :=
  { id := 22, userId := 102, driverStatus := .approved, availability := .online,
    vehicleType := .sedan, location := (1, 1) }

/-- A ride store with no trips and no drivers. -/
def dbEmptyFix : RideDB := { trips := [], drivers := [] }

/-! ## Claim theorems -/

/-- C9: `updateTripStatus` called by the trip's passenger with new status
ACCEPTED on a REQUESTED trip succeeds — ACCEPTED is not in the driver-only
status list, so the passenger authorization passes — and the trip ends in
status ACCEPTED with `acceptedAt` set but `driverId` still unset. -/
theorem c9_passenger_self_accept :
    updateTripStatus 1 tripFix TripStatus.accepted 5 =
      .ok { tripFix with status := TripStatus.accepted, acceptedAt := some 5 } ∧
    ({ tripFix with status := TripStatus.accepted, acceptedAt := some 5 } : Trip).status =
      TripStatus.accepted ∧
    ({ tripFix with status := TripStatus.accepted, acceptedAt := some 5 } : Trip).acceptedAt =
      some 5 ∧
    ({ tripFix with status := TripStatus.accepted, acceptedAt := some 5 } : Trip).driverId =
      none := by
  decide

/-- C6 (code bug): settlement is not idempotent per trip id.  Starting from
a passenger wallet with balance 100.00 and a fresh driver wallet, invoking
`processRidePayment` twice with the same amount 21.06 succeeds both times:
the passenger is debited twice (100 → 78.94 → 57.88) and the driver is
credited twice (0 → 17.90 → 35.80), so the second invocation does not
leave the balances of the first invocation intact. -/
theorem c6_settlement_not_idempotent :
    (processRidePayment wallet100Fix walletFix (Rat.divInt 2106 100)
        PaymentMethod.wallet dateFix).1 = true ∧
    (processRidePayment wallet100Fix walletFix (Rat.divInt 2106 100)
        PaymentMethod.wallet dateFix).2.1.balance = Rat.divInt 7894 100 ∧
    (processRidePayment wallet100Fix walletFix (Rat.divInt 2106 100)
        PaymentMethod.wallet dateFix).2.2.balance = Rat.divInt 1790 100 ∧
    (processRidePayment
        (processRidePayment wallet100Fix walletFix (Rat.divInt 2106 100)
          PaymentMethod.wallet dateFix).2.1
        (processRidePayment wallet100Fix walletFix (Rat.divInt 2106 100)
          PaymentMethod.wallet dateFix).2.2
        (Rat.divInt 2106 100) PaymentMethod.wallet dateFix).1 = true ∧
    (processRidePayment
        (processRidePayment wallet100Fix walletFix (Rat.divInt 2106 100)
          PaymentMethod.wallet dateFix).2.1
        (processRidePayment wallet100Fix walletFix (Rat.divInt 2106 100)
          PaymentMethod.wallet dateFix).2.2
        (Rat.divInt 2106 100) PaymentMethod.wallet dateFix).2.1.balance =
      Rat.divInt 5788 100 ∧
    (processRidePayment
        (processRidePayment wallet100Fix walletFix (Rat.divInt 2106 100)
          PaymentMethod.wallet dateFix).2.1
        (processRidePayment wallet100Fix walletFix (Rat.divInt 2106 100)
          PaymentMethod.wallet dateFix).2.2
        (Rat.divInt 2106 100) PaymentMethod.wallet dateFix).2.2.balance =
      Rat.divInt 3580 100 := by
  decide

/-- C3 (code bug): acceptance is a read-check-then-save sequence, not an
atomic conditional update.  Two drivers whose validation phases both run
against the same REQUESTED snapshot of the trip both pass every check, and
both write phases then succeed: each produces a saved trip in ACCEPTED
state bound to that driver, the last writer winning in the store.  Under
the interleaving check₁, check₂, commit₁, commit₂ both `acceptRide` calls
report success, contradicting "exactly one succeeds". -/
theorem c3_acceptance_race_not_atomic :
    acceptRideCheck tripFix driverFix1 false = none ∧
    acceptRideCheck tripFix driverFix2 false = none ∧
    (acceptRideCommit tripFix driverFix1 7).1.status = TripStatus.accepted ∧
    (acceptRideCommit tripFix driverFix1 7).1.driverId = some driverFix1 ∧
    (acceptRideCommit tripFix driverFix2 8).1.status = TripStatus.accepted ∧
    (acceptRideCommit tripFix driverFix2 8).1.driverId = some driverFix2 ∧
    acceptRide tripFix driverFix1 false 7 =
      .ok (acceptRideCommit tripFix driverFix1 7) ∧
    acceptRide tripFix driverFix2 false 8 =
      .ok (acceptRideCommit tripFix driverFix2 8) := by
  decide

/-- The tax field of the trip fare calculator follows the spec formula. -/
theorem tripFare_tax_eq (d t s disc tip : ℚ) :
    (tripCalculateFare d t s disc tip).tax =
      (((5 / 2 : ℚ) + d * (6 / 5) + t * (1 / 4)) * s - disc) * (8 / 100) := by
  simp only [tripCalculateFare, qadd_eq, qmul_eq, qsub_eq, Rat.divInt_eq_div]
  push_cast
  ring

/-- The total field of the trip fare calculator follows the spec formula. -/
theorem tripFare_total_eq (d t s disc tip : ℚ) :
    (tripCalculateFare d t s disc tip).totalFare =
      round2 ((((5 / 2 : ℚ) + d * (6 / 5) + t * (1 / 4)) * s - disc) +
        (((5 / 2 : ℚ) + d * (6 / 5) + t * (1 / 4)) * s - disc) * (8 / 100) + tip) := by
  simp only [tripCalculateFare, qadd_eq, qmul_eq, qsub_eq, Rat.divInt_eq_div]
  congr 1
  push_cast
  ring

/-- The tax field of the ride-service fare calculator (non-luxury) follows
the spec formula at surge 1, discount 0, tip 0. -/
theorem rideFare_tax_eq (d t : ℚ) :
    (rideCalculateFare d t none).tax =
      ((5 / 2 : ℚ) + d * (6 / 5) + t * (1 / 4)) * (8 / 100) := by
  simp only [rideCalculateFare, qadd_eq, qmul_eq, qsub_eq, Rat.divInt_eq_div,
    reduceCtorEq, if_neg, Option.some.injEq]
  push_cast
  ring

/-- The total field of the ride-service fare calculator (non-luxury)
follows the spec formula at surge 1, discount 0, tip 0. -/
theorem rideFare_total_eq (d t : ℚ) :
    (rideCalculateFare d t none).totalFare =
      round2 (((5 / 2 : ℚ) + d * (6 / 5) + t * (1 / 4)) +
        ((5 / 2 : ℚ) + d * (6 / 5) + t * (1 / 4)) * (8 / 100)) := by
  simp only [rideCalculateFare, qadd_eq, qmul_eq, qsub_eq, Rat.divInt_eq_div,
    reduceCtorEq, if_neg, Option.some.injEq]
  congr 1
  push_cast
  ring

/-- C5: the fare computation satisfies, for all inputs:
subtotal = (2.50 + distance·1.20 + duration·0.25)·surge,
tax = (subtotal − discount)·0.08, total = subtotal − discount + tax + tip
rounded to 2 decimals half-up; and for distance 10 km, duration 20 min,
surge 1, no discount or tip the result is subtotal 19.50, tax 1.56,
total 21.06 (for both the trip-model and the ride-service calculator). -/
theorem c5_fare_formula :
    (∀ d t s disc tip : ℚ,
      (tripCalculateFare d t s disc tip).tax =
        (((5 / 2 : ℚ) + d * (6 / 5) + t * (1 / 4)) * s - disc) * (8 / 100) ∧
      (tripCalculateFare d t s disc tip).totalFare =
        round2 ((((5 / 2 : ℚ) + d * (6 / 5) + t * (1 / 4)) * s - disc) +
          (((5 / 2 : ℚ) + d * (6 / 5) + t * (1 / 4)) * s - disc) * (8 / 100) + tip)) ∧
    (∀ d t : ℚ,
      (rideCalculateFare d t none).tax =
        ((5 / 2 : ℚ) + d * (6 / 5) + t * (1 / 4)) * (8 / 100) ∧
      (rideCalculateFare d t none).totalFare =
        round2 (((5 / 2 : ℚ) + d * (6 / 5) + t * (1 / 4)) +
          ((5 / 2 : ℚ) + d * (6 / 5) + t * (1 / 4)) * (8 / 100))) ∧
    ((5 / 2 : ℚ) + 10 * (6 / 5) + 20 * (1 / 4)) * 1 = 39 / 2 ∧
    (tripCalculateFare 10 20 1 0 0).tax = 156 / 100 ∧
    (tripCalculateFare 10 20 1 0 0).totalFare = 2106 / 100 ∧
    (rideCalculateFare 10 20 none).tax = 156 / 100 ∧
    (rideCalculateFare 10 20 none).totalFare = 2106 / 100 := by
  have harg : (((5 / 2 : ℚ) + 10 * (6 / 5) + 20 * (1 / 4)) * 1 - 0) +
      (((5 / 2 : ℚ) + 10 * (6 / 5) + 20 * (1 / 4)) * 1 - 0) * (8 / 100) + 0 =
      ((2106 : ℤ) : ℚ) / 100 := by push_cast; ring
  have harg2 : ((5 / 2 : ℚ) + 10 * (6 / 5) + 20 * (1 / 4)) +
      ((5 / 2 : ℚ) + 10 * (6 / 5) + 20 * (1 / 4)) * (8 / 100) =
      ((2106 : ℤ) : ℚ) / 100 := by push_cast; ring
  refine ⟨fun d t s disc tip => ⟨tripFare_tax_eq d t s disc tip,
      tripFare_total_eq d t s disc tip⟩,
    fun d t => ⟨rideFare_tax_eq d t, rideFare_total_eq d t⟩,
    by norm_num, ?_, ?_, ?_, ?_⟩
  · rw [tripFare_tax_eq]; norm_num
  · rw [tripFare_total_eq, harg, round2_int_div_100]; norm_num
  · rw [rideFare_tax_eq]; norm_num
  · rw [rideFare_total_eq, harg2, round2_int_div_100]; norm_num

/-- The balance written by `addTransaction` is the pre-save normalization
of the branch the method takes. -/
theorem addTransaction_balance (w : Wallet) (ty : TransactionType) (amount : ℚ)
    (category : TransactionCategory) (st : Option TransactionStatus) :
    (w.addTransaction ty amount category st).balance =
      preSaveBal (if st.getD .pending = TransactionStatus.completed then
          match ty with
          | .credit => qadd w.balance amount
          | .debit => qsub w.balance amount
        else w.balance) := by
  simp only [Wallet.addTransaction, saveWallet]
  split_ifs <;> cases ty <;> rfl

theorem preSaveBal_nonneg (b : ℚ) : 0 ≤ preSaveBal b := by
  unfold preSaveBal
  apply round2_nonneg
  split_ifs with h
  · exact le_refl 0
  · exact le_of_not_lt h

theorem preSaveBal_cents (b : ℚ) : ∃ k : ℤ, preSaveBal b = (k : ℚ) / 100 :=
  round2_cents _

theorem round2_zero : round2 0 = 0 := by decide

theorem preSaveBal_of_neg {b : ℚ} (h : b < 0) : preSaveBal b = 0 := by
  unfold preSaveBal
  rw [if_pos h, round2_zero]

/-- C8: after every save performed by `addTransaction` the wallet balance
is non-negative and is a whole number of cents, because the pre-save hook
replaces a negative balance with 0 and rounds to 2 decimals; in particular
a COMPLETED debit whose subtraction would drive the balance below zero is
silently clamped to 0. -/
theorem c8_presave_normalization (w : Wallet) (ty : TransactionType) (amount : ℚ)
    (category : TransactionCategory) (st : Option TransactionStatus) :
    0 ≤ (w.addTransaction ty amount category st).balance ∧
    (∃ k : ℤ, (w.addTransaction ty amount category st).balance = (k : ℚ) / 100) ∧
    (ty = TransactionType.debit → st = some TransactionStatus.completed →
      qsub w.balance amount < 0 →
      (w.addTransaction ty amount category st).balance = 0) := by
  refine ⟨?_, ?_, ?_⟩
  · rw [addTransaction_balance]; exact preSaveBal_nonneg _
  · rw [addTransaction_balance]; exact preSaveBal_cents _
  · intro hty hst hneg
    subst hty
    subst hst
    rw [addTransaction_balance]
    simp only [Option.getD_some, if_pos rfl]
    exact preSaveBal_of_neg hneg

/-- Witness for C8 at a concrete input: a COMPLETED debit of 50 on a fresh
wallet (balance 0) would make the balance negative and is clamped to 0. -/
theorem c8_presave_normalization_witness :
    qsub walletFix.balance 50 < 0 ∧
    (walletFix.addTransaction TransactionType.debit 50 TransactionCategory.penalty
      (some TransactionStatus.completed)).balance = 0 :=
  ⟨by decide, (c8_presave_normalization walletFix TransactionType.debit 50
    TransactionCategory.penalty (some TransactionStatus.completed)).2.2 rfl rfl (by decide)⟩

/-- C2: a trip status update succeeds only when the requested transition is
in the table REQUESTED→{ACCEPTED, CANCELLED}, ACCEPTED→{DRIVER_ARRIVED,
CANCELLED}, DRIVER_ARRIVED→{IN_PROGRESS, CANCELLED},
IN_PROGRESS→{COMPLETED}, COMPLETED/CANCELLED→{} — likewise `acceptRide`
succeeds only on a REQUESTED trip; an authorized caller requesting a
transition outside the table gets a state-conflict error naming the
current and requested states, the trip left unmutated (the error is thrown
before any write). -/
theorem c2_transition_table (userId : ℕ) (trip : Trip) (status : TripStatus) (now : ℕ)
    (driver : Driver) (hasActive : Bool) :
    ((∃ t, updateTripStatus userId trip status now = .ok t) →
      status ∈ validTransitions trip.status) ∧
    ((trip.isPassenger userId = true ∨ trip.isDriver userId = true) →
      status ∉ validTransitions trip.status →
      updateTripStatus userId trip status now =
        .error (.stateConflict trip.status status)) ∧
    ((∃ r, acceptRide trip driver hasActive now = .ok r) →
      trip.status = TripStatus.requested) := by
  refine ⟨?_, ?_, ?_⟩
  · rintro ⟨t, ht⟩
    unfold updateTripStatus at ht
    split_ifs at ht
    simp_all
  · intro hauth hnot
    have h1 : ¬(trip.isPassenger userId = false ∧ trip.isDriver userId = false) := by
      rcases hauth with h | h <;> simp [h]
    unfold updateTripStatus
    rw [if_neg h1, if_pos hnot]
  · rintro ⟨r, hr⟩
    unfold acceptRide acceptRideCheck at hr
    split_ifs at hr
    simp_all

/-- Witness for C2 at a concrete input: requesting COMPLETED→ACCEPTED as
the trip's passenger yields the state-conflict error naming both states. -/
theorem c2_transition_table_witness :
    updateTripStatus 1 { tripFix with status := TripStatus.completed } TripStatus.accepted 5 =
      .error (.stateConflict TripStatus.completed TripStatus.accepted) :=
  (c2_transition_table 1 { tripFix with status := TripStatus.completed }
      TripStatus.accepted 5 driverFix1 false).2.1 (Or.inl (by decide)) (by decide)

/-- C4: on an active wallet, a debit of an amount above the balance fails
with the insufficient-balance error, and a debit whose amount would push
the (lazily reset) spend counters over a limit fails with the
limit-exceeded error; in both cases the persisted wallet — balance, spend
counters and transaction log — is unchanged, because the error is thrown
before any save. -/
theorem c4_debit_failure_frame (w : Wallet) (now : SimpleDate) (amount : ℚ)
    (category : TransactionCategory) (hActive : w.isActive = true) :
    (w.balance < amount →
      w.debit now amount category = .error .insufficientBalance ∧
      applyOp w (.debitOp now amount category) = w) ∧
    (¬ w.balance < amount →
      ((w.resetLimits now).dailyLimit < qadd (w.resetLimits now).dailySpent amount ∨
        (w.resetLimits now).monthlyLimit < qadd (w.resetLimits now).monthlySpent amount) →
      w.debit now amount category = .error .limitExceeded ∧
      applyOp w (.debitOp now amount category) = w) := by
  constructor
  · intro hlt
    have hd : w.debit now amount category = .error .insufficientBalance := by
      unfold Wallet.debit
      rw [if_neg (by simp [hActive]), if_pos hlt]
    exact ⟨hd, by simp [applyOp, hd]⟩
  · intro hge hlim
    have hcs : (w.canSpend now amount).1 = false := by
      unfold Wallet.canSpend
      rcases hlim with h | h <;>
        simp [decide_eq_false (not_le.mpr h)]
    have hd : w.debit now amount category = .error .limitExceeded := by
      unfold Wallet.debit
      rw [if_neg (by simp [hActive]), if_neg hge]
      rcases hp : w.canSpend now amount with ⟨b, wr⟩
      rw [hp] at hcs
      simp only at hcs
      subst hcs
      rfl
    exact ⟨hd, by simp [applyOp, hd]⟩

/-- Witness for C4 at concrete inputs: a fresh wallet (balance 0) rejects
a debit of 5 as insufficient, and a wallet with balance 1000 rejects a
debit of 600 as over the 500 daily limit. -/
theorem c4_debit_failure_frame_witness :
    walletFix.balance < 5 ∧
    walletFix.debit dateFix 5 TransactionCategory.ridePayment =
      .error .insufficientBalance ∧
    (wallet1000Fix.resetLimits dateFix).dailyLimit <
      qadd (wallet1000Fix.resetLimits dateFix).dailySpent 600 ∧
    wallet1000Fix.debit dateFix 600 TransactionCategory.ridePayment =
      .error .limitExceeded :=
  ⟨by decide,
   ((c4_debit_failure_frame walletFix dateFix 5 TransactionCategory.ridePayment
      (by decide)).1 (by decide)).1,
   by decide,
   ((c4_debit_failure_frame wallet1000Fix dateFix 600 TransactionCategory.ridePayment
      (by decide)).2 (by decide) (Or.inl (by decide))).1⟩

/-- C10: a successful withdrawal appends a single withdrawal (debit)
transaction whose status is PENDING — the PROCESSING value used by the
service is not a member of the wallet TransactionStatus enum, so
`addTransaction` falls back to its PENDING default — and leaves balance,
dailySpent and monthlySpent unchanged, because `addTransaction` only
adjusts them for COMPLETED transactions (`hNorm` states that the stored
balance is already pre-save normalized, as holds for every persisted
wallet). -/
theorem c10_withdrawal_pending_frame (w : Wallet) (amount : ℚ)
    (h10 : ¬ amount < 10) (hActive : w.isActive = true) (hBal : ¬ w.balance < amount)
    (hNorm : preSaveBal w.balance = w.balance) :
    withdrawFromWallet w amount =
      .ok { w with transactions := w.transactions ++
        [⟨TransactionType.debit, amount, TransactionCategory.withdrawal,
          TransactionStatus.pending⟩] } := by
  unfold withdrawFromWallet
  rw [if_neg h10, if_neg (by simp [hActive]), if_neg hBal]
  unfold Wallet.addTransaction saveWallet
  simp [hNorm]

/-- Witness for C10 at a concrete input: withdrawing 50 from an active
wallet with balance 100 appends one PENDING withdrawal debit and leaves
every other field, including the balance, as it was. -/
theorem c10_withdrawal_pending_frame_witness :
    withdrawFromWallet wallet100Fix 50 =
      .ok { wallet100Fix with transactions := wallet100Fix.transactions ++
        [⟨TransactionType.debit, 50, TransactionCategory.withdrawal,
          TransactionStatus.pending⟩] } :=
  c10_withdrawal_pending_frame wallet100Fix 50 (by decide) (by decide) (by decide) (by decide)

/-- The ledger invariant that actually holds of the code: the stored
balance is the transaction log replayed save by save (clamping at 0 and
rounding to cents after each saved transaction). -/
def walletInv (w : Wallet) : Prop := w.balance = ledgerBalance w.transactions

theorem preSaveBal_idem (b : ℚ) : preSaveBal (preSaveBal b) = preSaveBal b := by
  show round2 (if preSaveBal b < 0 then 0 else preSaveBal b) = preSaveBal b
  rw [if_neg (not_lt.mpr (preSaveBal_nonneg b))]
  show round2 (round2 (if b < 0 then 0 else b)) = round2 (if b < 0 then 0 else b)
  exact round2_idem _

theorem preSaveBal_zero : preSaveBal 0 = 0 := by decide

theorem walletStep_saved (b : ℚ) (t : Transaction) :
    preSaveBal (walletStep b t) = walletStep b t := by
  unfold walletStep
  exact preSaveBal_idem _

theorem foldl_walletStep_saved (l : List Transaction) (b : ℚ) (h : preSaveBal b = b) :
    preSaveBal (l.foldl walletStep b) = l.foldl walletStep b := by
  induction l generalizing b with
  | nil => simpa using h
  | cons t ts ih =>
    simp only [List.foldl_cons]
    exact ih _ (walletStep_saved b t)

theorem ledgerBalance_saved (l : List Transaction) :
    preSaveBal (ledgerBalance l) = ledgerBalance l :=
  foldl_walletStep_saved l 0 preSaveBal_zero

theorem ledgerBalance_append (l : List Transaction) (t : Transaction) :
    ledgerBalance (l ++ [t]) = walletStep (ledgerBalance l) t := by
  unfold ledgerBalance
  rw [List.foldl_append]
  rfl

/-- The transaction log written by `addTransaction` is the old log plus the
one new entry. -/
theorem addTransaction_transactions (w : Wallet) (ty : TransactionType) (amount : ℚ)
    (category : TransactionCategory) (st : Option TransactionStatus) :
    (w.addTransaction ty amount category st).transactions =
      w.transactions ++ [⟨ty, amount, category, st.getD .pending⟩] := by
  simp only [Wallet.addTransaction, saveWallet]
  split_ifs <;> cases ty <;> rfl

theorem addTransaction_inv (w : Wallet) (ty : TransactionType) (amount : ℚ)
    (category : TransactionCategory) (st : Option TransactionStatus)
    (h : walletInv w) : walletInv (w.addTransaction ty amount category st) := by
  unfold walletInv at h ⊢
  rw [addTransaction_balance, addTransaction_transactions, ledgerBalance_append, ← h]
  rfl

theorem resetLimits_inv (w : Wallet) (now : SimpleDate) (h : walletInv w) :
    walletInv (w.resetLimits now) := by
  unfold walletInv at h ⊢
  simp only [Wallet.resetLimits]
  split_ifs <;> exact h

theorem saveWallet_inv (w : Wallet) (h : walletInv w) : walletInv (saveWallet w) := by
  unfold walletInv at h ⊢
  show preSaveBal w.balance = ledgerBalance w.transactions
  rw [h]
  exact ledgerBalance_saved _

theorem credit_ok_inv {w w' : Wallet} {amount : ℚ} {category : TransactionCategory}
    (hE : w.credit amount category = .ok w') (h : walletInv w) : walletInv w' := by
  unfold Wallet.credit at hE
  split_ifs at hE
  cases hE
  exact addTransaction_inv _ _ _ _ _ h

theorem debit_ok_inv {w w' : Wallet} {now : SimpleDate} {amount : ℚ}
    {category : TransactionCategory}
    (hE : w.debit now amount category = .ok w') (h : walletInv w) : walletInv w' := by
  unfold Wallet.debit at hE
  split_ifs at hE
  rcases hp : w.canSpend now amount with ⟨b, wr⟩
  rw [hp] at hE
  have hwr : wr = w.resetLimits now := by
    have : (w.canSpend now amount).2 = w.resetLimits now := rfl
    rw [hp] at this
    exact this
  cases b
  · exact absurd hE (by simp)
  · cases hE
    exact addTransaction_inv _ _ _ _ _ (hwr ▸ resetLimits_inv w now h)

theorem withdraw_ok_inv {w w' : Wallet} {amount : ℚ}
    (hE : withdrawFromWallet w amount = .ok w') (h : walletInv w) : walletInv w' := by
  unfold withdrawFromWallet at hE
  split_ifs at hE
  cases hE
  exact addTransaction_inv _ _ _ _ _ h

/-- Every wallet operation preserves the replayed-ledger invariant. -/
theorem applyOp_inv (w : Wallet) (op : WalletOp) (h : walletInv w) :
    walletInv (applyOp w op) := by
  cases op with
  | creditOp a c =>
    simp only [applyOp]
    rcases hE : w.credit a c with e | w'
    · exact h
    · exact credit_ok_inv hE h
  | debitOp d a c =>
    simp only [applyOp]
    rcases hE : w.debit d a c with e | w'
    · exact h
    · exact debit_ok_inv hE h
  | withdrawOp a =>
    simp only [applyOp]
    rcases hE : withdrawFromWallet w a with e | w'
    · exact h
    · exact withdraw_ok_inv hE h
  | saveOp d =>
    simp only [applyOp]
    exact saveWallet_inv _ (resetLimits_inv w d h)

/-- C1 (amended): after any sequence of wallet operations starting from a
freshly created wallet, the balance equals the transaction log replayed
save by save — each COMPLETED credit added, each COMPLETED debit
subtracted, the intermediate balance clamped at 0 and rounded to 2
decimals after every save (`ledgerBalance`), rather than the exact sum
Σ(completed credits) − Σ(completed debits). -/
theorem c1_ledger_fold_invariant (ops : List WalletOp) (start : SimpleDate) :
    (ops.foldl applyOp (createWalletForUser start)).balance =
      ledgerBalance (ops.foldl applyOp (createWalletForUser start)).transactions := by
  have hbase : walletInv (createWalletForUser start) := by
    unfold walletInv
    have h1 : (createWalletForUser start).balance = preSaveBal 0 := by
      simp [createWalletForUser, saveWallet]
    have h2 : (createWalletForUser start).transactions = [] := by
      simp [createWalletForUser, saveWallet]
    rw [h1, h2, preSaveBal_zero]
    rfl
  suffices h : ∀ w, walletInv w → walletInv (ops.foldl applyOp w) from h _ hbase
  induction ops with
  | nil => exact fun w h => h
  | cons op rest ih => exact fun w h => ih _ (applyOp_inv w op h)

/-- C1 counterexample: a single settlement-style credit of
17.901 = 21.06·0.85 (a legal operation sequence) leaves the wallet balance
at 17.90 — the pre-save rounding — while Σ(completed credits) −
Σ(completed debits) over its log is 17.901, so the claimed exact-sum
invariant is false. -/
theorem c1_exact_sum_counterexample :
    (List.foldl applyOp (createWalletForUser dateFix)
        [WalletOp.creditOp (Rat.divInt 17901 1000) TransactionCategory.rideEarning]).balance =
      Rat.divInt 1790 100 ∧
    completedSum (List.foldl applyOp (createWalletForUser dateFix)
        [WalletOp.creditOp (Rat.divInt 17901 1000) TransactionCategory.rideEarning]).transactions =
      Rat.divInt 17901 1000 ∧
    (List.foldl applyOp (createWalletForUser dateFix)
        [WalletOp.creditOp (Rat.divInt 17901 1000) TransactionCategory.rideEarning]).balance ≠
      completedSum (List.foldl applyOp (createWalletForUser dateFix)
        [WalletOp.creditOp (Rat.divInt 17901 1000) TransactionCategory.rideEarning]).transactions := by
  have htx : (List.foldl applyOp (createWalletForUser dateFix)
      [WalletOp.creditOp (Rat.divInt 17901 1000) TransactionCategory.rideEarning]).transactions =
      [⟨.credit, Rat.divInt 17901 1000, .rideEarning, .completed⟩] := by decide
  have hbal : (List.foldl applyOp (createWalletForUser dateFix)
      [WalletOp.creditOp (Rat.divInt 17901 1000) TransactionCategory.rideEarning]).balance =
      Rat.divInt 1790 100 := by decide
  have hsum : completedSum [(⟨.credit, Rat.divInt 17901 1000, .rideEarning,
      .completed⟩ : Transaction)] = Rat.divInt 17901 1000 := by
    unfold completedSum
    simp [List.filter]
  refine ⟨hbal, by rw [htx]; exact hsum, ?_⟩
  rw [hbal, htx, hsum]
  decide

/-- A ride store with no trips and one eligible driver. -/
def dbOneDriverFix : RideDB := { trips := [], drivers := [driverFix1] }

/-- C7 counterexample: with no drivers at all, `requestRide` does fail with
the no-drivers-available error — but the trip has already been persisted
in the store by the preceding `trip.save()`, so "no trip record is
persisted" is false. -/
theorem c7_no_drivers_counterexample :
    (requestRide (fun _ _ => 10) (fun _ _ => 0) dbEmptyFix 1 UserRole.passenger
      (0, 0) (1, 1) VehicleType.sedan PaymentMethod.wallet 0).1 =
      .error .noDriversAvailable ∧
    dbEmptyFix.trips.length = 0 ∧
    (requestRide (fun _ _ => 10) (fun _ _ => 0) dbEmptyFix 1 UserRole.passenger
      (0, 0) (1, 1) VehicleType.sedan PaymentMethod.wallet 0).2.1.trips.length = 1 ∧
    (requestRide (fun _ _ => 10) (fun _ _ => 0) dbEmptyFix 1 UserRole.passenger
      (0, 0) (1, 1) VehicleType.sedan PaymentMethod.wallet 0).2.2 = [] := by
  decide

/-- C7 (amended): for a passenger with no active trip, `requestRide` always
persists the new trip in REQUESTED state (before the driver search); when
the eligible candidate set (APPROVED, ONLINE, matching vehicle class,
within 5 km, capped at 10) is empty it then fails with the
no-drivers-available error, publishing nothing, and only when at least one
candidate exists does it succeed and publish the dispatch-fanout event
with the candidate driver ids. -/
theorem c7_request_ride_amended (distKm : ℚ × ℚ → ℚ × ℚ → ℚ)
    (geoDistM : Driver → ℚ × ℚ → ℚ) (db : RideDB) (userId : ℕ)
    (pickup dropoff : ℚ × ℚ) (vt : VehicleType) (pm : PaymentMethod) (now : ℕ)
    (hNoActive : hasActiveTrip db userId = false) :
    ∃ t : Trip, t.status = TripStatus.requested ∧ t.driverId = none ∧
      requestRide distKm geoDistM db userId UserRole.passenger pickup dropoff vt pm now =
        (if findNearbyDrivers geoDistM db.drivers pickup vt = [] then
          (.error .noDriversAvailable, { db with trips := db.trips ++ [t] }, [])
        else
          (.ok t, { db with trips := db.trips ++ [t] },
            [.rideRequested t
              ((findNearbyDrivers geoDistM db.drivers pickup vt).map Driver.id)])) := by
  refine ⟨{ passengerId := userId
            driverId := none
            status := .requested
            estimatedDistance := distKm pickup dropoff
            estimatedDuration := max (qmul (distKm pickup dropoff) 2) 5
            fareBreakdown := tripCalculateFare (distKm pickup dropoff)
              (max (qmul (distKm pickup dropoff) 2) 5)
              (rideCalculateFare (distKm pickup dropoff)
                (max (qmul (distKm pickup dropoff) 2) 5) none).surgeMultiplier
              (rideCalculateFare (distKm pickup dropoff)
                (max (qmul (distKm pickup dropoff) 2) 5) none).discount
              (rideCalculateFare (distKm pickup dropoff)
                (max (qmul (distKm pickup dropoff) 2) 5) none).tip
            paymentMethod := pm
            paymentStatus := .pending
            vehicleType := vt
            requestedAt := now
            acceptedAt := none
            driverArrivedAt := none
            startedAt := none
            completedAt := none
            cancelledAt := none }, rfl, rfl, ?_⟩
  unfold requestRide
  rw [if_neg (fun h => h rfl), if_neg (by simp [hNoActive])]

/-- Witness for C7 (amended) at a concrete input: a store with one eligible
driver and a passenger with no active trip — the request succeeds, the
trip is persisted in REQUESTED state and the fan-out event names the
candidate driver. -/
theorem c7_request_ride_amended_witness :
    ∃ t : Trip, t.status = TripStatus.requested ∧ t.driverId = none ∧
      requestRide (fun _ _ => 10) (fun _ _ => 0) dbOneDriverFix 1 UserRole.passenger
          (0, 0) (1, 1) VehicleType.sedan PaymentMethod.wallet 0 =
        (if findNearbyDrivers (fun _ _ => 0) dbOneDriverFix.drivers (0, 0)
            VehicleType.sedan = [] then
          (.error .noDriversAvailable,
            { dbOneDriverFix with trips := dbOneDriverFix.trips ++ [t] }, [])
        else
          (.ok t, { dbOneDriverFix with trips := dbOneDriverFix.trips ++ [t] },
            [.rideRequested t ((findNearbyDrivers (fun _ _ => 0) dbOneDriverFix.drivers
              (0, 0) VehicleType.sedan).map Driver.id)])) :=
  c7_request_ride_amended (fun _ _ => 10) (fun _ _ => 0) dbOneDriverFix 1 (0, 0) (1, 1)
    VehicleType.sedan PaymentMethod.wallet 0 (by decide)
